import Mathlib

/-!
Verification of the `SafeEvaluator` component of Oscar's Pro Calculator
(`src/OscarProcalculatorapp.py`).

The evaluator parses an input string with Python's `ast.parse(mode="eval")`
and reduces the resulting tree with `SafeEvaluator._eval_node`, dispatching
binary and unary operators through the fixed dict
`SafeEvaluator.ALLOWED_OPERATORS`.

Shallow embedding choices:
* Python AST nodes relevant to `mode="eval"` expressions are the inductive
  `Ast` below; node kinds with no branch in `_eval_node` (names, calls,
  comparisons, boolean operations, collection displays, attributes,
  subscripts) are represented so that the fall-through branch
  (`raise ValueError("Invalid expression")`, line 49) is visible.
* Python numbers are modelled exactly: `int` as `Int`, `float` as `ℚ`
  (every numeric value appearing in the spec's examples is exactly
  representable, so the rational model is faithful at every point the
  claims touch), `bool` as `Bool`.  A non-integral exponent would produce
  an irrational float; that single case is outside the rational model and
  is mapped to the distinguished `Err.irrationalPow` (no claim exercises
  it).
* Exceptions are the `Err` inductive: `syntaxError` is CPython's
  `SyntaxError` from `ast.parse`; `invalidConstant`, `operatorNotAllowed`,
  `unaryOperatorNotAllowed`, `invalidExpression` are the four
  `ValueError` raise sites of `_eval_node` (lines 31, 37, 44, 49);
  `zeroDivision` is `ZeroDivisionError` from `operator.truediv`,
  `operator.mod` and `operator.pow`.  `emptyInput` stands for the spec's
  `EmptyInputError` class; no code path produces it.
* `ast.parse` is modelled by `tokenize`/`parse` below: a faithful
  rendering of Python's expression grammar restricted to the fragment the
  calculator feeds the evaluator (numeric literals including scientific
  notation, the binary operators `+ - * / // % ** ^ & | << >>`, unary
  `+ - ~`, parentheses, identifiers and the keyword constants
  `True`/`False`/`None`).
-/

namespace OscarCalc

/-- A Python constant as it appears in an `ast.Constant` node.  (Complex,
bytes and Ellipsis constants are not representable in the calculator's
input fragment and are omitted.) -/
inductive PyConst where
  | int (n : Int)
  | float (q : ℚ)
  | bool (b : Bool)
  | str (s : String)
  | none
  deriving DecidableEq

/-- Python binary operator AST classes (`ast.Add`, `ast.Sub`, …). -/
inductive BinOperator where
  | add | sub | mult | div | mod | pow
  | floorDiv | lShift | rShift | bitOr | bitXor | bitAnd | matMult
  deriving DecidableEq

/-- Python unary operator AST classes (`ast.USub`, `ast.UAdd`,
`ast.Not`, `ast.Invert`). -/
inductive UnaryOperator where
  | uSub | uAdd | notOp | invert
  deriving DecidableEq

/-- Python comparison operator AST classes. -/
inductive CmpOperator where
  | eq | notEq | lt | ltE | gt | gtE
  deriving DecidableEq

/-- Python boolean operator AST classes (`ast.And`, `ast.Or`). -/
inductive BoolOperator where
  | and | or
  deriving DecidableEq

/-- Expression AST, mirroring the Python `ast` node kinds that can reach
`SafeEvaluator._eval_node`.  `expr` is the `ast.Expr` statement wrapper
handled defensively at line 47 of the source. -/
inductive Ast where
  | constant (value : PyConst)
  | binOp (left : Ast) (op : BinOperator) (right : Ast)
  | unaryOp (op : UnaryOperator) (operand : Ast)
  | expr (value : Ast)
  | name (id : String)
  | call (func : Ast) (args : List Ast)
  | compare (left : Ast) (op : CmpOperator) (right : Ast)
  | boolOp (op : BoolOperator) (values : List Ast)
  | listLit (elts : List Ast)
  | tupleLit (elts : List Ast)
  | attrAccess (value : Ast) (attr : String)
  | subscript (value : Ast) (index : Ast)

/-- The evaluator's failure modes; see the module docstring for the
correspondence with the exceptions of the Python source. -/
inductive Err where
  | syntaxError
  | invalidConstant
  | operatorNotAllowed
  | unaryOperatorNotAllowed
  | invalidExpression
  | zeroDivision
  | emptyInput
  | irrationalPow
  deriving DecidableEq

/-- A Python value that `_eval_node` can return: an `int`, a `float`
(exact rational model), or a `bool` (which slips through the
`isinstance(node.value, (int, float))` check because `bool` is a subclass
of `int`). -/
inductive Value where
  | int (n : Int)
  | float (q : ℚ)
  | bool (b : Bool)
  deriving DecidableEq

/-- The rational magnitude of a value; Python arithmetic coerces `bool`
to `int` (`True` is `1`, `False` is `0`). -/
def Value.toQ : Value → ℚ
  | .int n => (n : ℚ)
  | .float q => q
  | .bool b => if b then 1 else 0

/-- Whether the value is a Python `float` (arithmetic on a `float`
operand yields a `float`). -/
def Value.isFloat : Value → Bool
  | .float _ => true
  | _ => false

/-- Package an arithmetic result: a `float` when a `float` operand was
involved, otherwise an `int` (arithmetic on `bool`s yields `int` in
Python).  Only applied to integral rationals in the `int` case. -/
def mkNum (isFloat : Bool) (q : ℚ) : Value :=
  if isFloat then .float q else .int q.num

/-- `operator.add`. -/
def pyAdd (a b : Value) : Except Err Value :=
  .ok (mkNum (a.isFloat || b.isFloat) (a.toQ + b.toQ))

/-- `operator.sub`. -/
def pySub (a b : Value) : Except Err Value :=
  .ok (mkNum (a.isFloat || b.isFloat) (a.toQ - b.toQ))

/-- `operator.mul`. -/
def pyMul (a b : Value) : Except Err Value :=
  .ok (mkNum (a.isFloat || b.isFloat) (a.toQ * b.toQ))

/-- `operator.truediv`: true division always yields a `float`; division
by zero raises `ZeroDivisionError`. -/
def pyDiv (a b : Value) : Except Err Value :=
  if b.toQ = 0 then .error .zeroDivision
  else .ok (.float (a.toQ / b.toQ))

/-- `operator.mod`: Python's floor-based modulo (result carries the sign
of the divisor); modulo by zero raises `ZeroDivisionError`. -/
def pyMod (a b : Value) : Except Err Value :=
  if b.toQ = 0 then .error .zeroDivision
  else .ok (mkNum (a.isFloat || b.isFloat) (a.toQ - b.toQ * (⌊a.toQ / b.toQ⌋ : ℤ)))

/-- `operator.pow`.  An integral exponent is computed exactly: a
non-negative one keeps the operands' kind, a negative one yields a
`float` (and `0 ** negative` raises `ZeroDivisionError`, as in Python).
A non-integral exponent generally has an irrational value and lies
outside the exact rational model; it is mapped to `Err.irrationalPow`
(no claim reaches this case). -/
def pyPow (a b : Value) : Except Err Value :=
  let e := b.toQ
  if e.den = 1 then
    if 0 ≤ e.num then
      .ok (mkNum (a.isFloat || b.isFloat) (a.toQ ^ e.num.toNat))
    else if a.toQ = 0 then .error .zeroDivision
    else .ok (.float ((a.toQ ^ e.num.natAbs)⁻¹))
  else .error .irrationalPow

/-- `operator.neg` (`-True` is the `int` `-1`). -/
def pyNeg : Value → Value
  | .int n => .int (-n)
  | .float q => .float (-q)
  | .bool b => .int (-(if b then 1 else 0))

/-- `operator.pos` (`+True` is the `int` `1`). -/
def pyPos : Value → Value
  | .int n => .int n
  | .float q => .float q
  | .bool b => .int (if b then 1 else 0)

namespace SafeEvaluator

/-- The binary-operator entries of `SafeEvaluator.ALLOWED_OPERATORS`
(source lines 8-17): the dict maps the six AST operator classes
`Add, Sub, Mult, Div, Pow, Mod` to the corresponding `operator`-module
functions; every other binary operator class is absent (`none`). -/
def ALLOWED_BINARY : BinOperator → Option (Value → Value → Except Err Value)
  | .add => some pyAdd
  | .sub => some pySub
  | .mult => some pyMul
  | .div => some pyDiv
  | .pow => some pyPow
  | .mod => some pyMod
  | _ => Option.none

/-- The unary-operator entries of `SafeEvaluator.ALLOWED_OPERATORS`
(source lines 15-16): `USub ↦ operator.neg`, `UAdd ↦ operator.pos`;
`Not` and `Invert` are absent. -/
def ALLOWED_UNARY : UnaryOperator → Option (Value → Value)
  | .uSub => some pyNeg
  | .uAdd => some pyPos
  | _ => Option.none

/-- `SafeEvaluator._eval_node` (source lines 24-49).  The `ast.Num`
branch (line 26) accepts `int` and `float` constants (its deprecation
shim excludes `bool`); the `ast.Constant` branch (lines 28-31) accepts
any value passing `isinstance(value, (int, float))` — which includes
`bool`, a subclass of `int` — and rejects everything else with
`ValueError("Invalid constant")`.  `BinOp`/`UnaryOp` reduce their
operands first and only then look the operator class up in
`ALLOWED_OPERATORS`, failing when it is absent.  Any other node kind
falls through to `ValueError("Invalid expression")`. -/
def eval_node : Ast → Except Err Value
  | .constant v =>
    match v with
    | .int n => .ok (.int n)
    | .float q => .ok (.float q)
    | .bool b => .ok (.bool b)
    | _ => .error .invalidConstant
  | .binOp l op r => do
    let lv ← eval_node l
    let rv ← eval_node r
    match ALLOWED_BINARY op with
    | Option.none => .error .operatorNotAllowed
    | some f => f lv rv
  | .unaryOp op e => do
    let v ← eval_node e
    match ALLOWED_UNARY op with
    | Option.none => .error .unaryOperatorNotAllowed
    | some f => .ok (f v)
  | .expr e => eval_node e
  | _ => .error .invalidExpression

end SafeEvaluator

/-! ### The parser

`ast.parse(expression, mode="eval")` is modelled by `tokenize` and
`parse`: Python's expression grammar restricted to the calculator's
input fragment — numeric literals (integers, decimals and scientific
notation, with CPython's ban on leading zeros in nonzero integer
literals), identifiers and the keyword constants, the binary operators
`| ^ & << >> + - * / // % **`, unary `+ - ~`, and parentheses.
Standard Python precedence: `**` is right-associative and binds its
right operand through the unary level (`2**-1` parses, `-5**2` is
`-(5**2)`); all other binary levels are left-associative.  Every
failure of the lexer or parser is `Err.syntaxError`, modelling
CPython's `SyntaxError`. -/

/-- Lexical tokens of the input fragment. -/
inductive Tok where
  | num (isFloat : Bool) (q : ℚ)
  | ident (s : String)
  | plus | minus | star | slash | percent | dstar | dslash
  | caret | amp | pipe | lshift | rshift | tilde
  | lparen | rparen
  deriving DecidableEq

/-- Longest prefix of decimal digits. -/
def takeDigits : List Char → List Char × List Char
  | [] => ([], [])
  | c :: cs =>
    if c.isDigit then
      let (ds, rest) := takeDigits cs
      (c :: ds, rest)
    else ([], c :: cs)

/-- Longest prefix of identifier characters. -/
def takeIdent : List Char → List Char × List Char
  | [] => ([], [])
  | c :: cs =>
    if c.isAlphanum || c == '_' then
      let (xs, rest) := takeIdent cs
      (c :: xs, rest)
    else ([], c :: cs)

/-- The natural number denoted by a digit string. -/
def digitsVal (ds : List Char) : Nat :=
  ds.foldl (fun a c => a * 10 + (c.toNat - 48)) 0

/-- CPython rejects leading zeros in nonzero decimal integer literals
(`007` is a `SyntaxError`, `00` is fine). -/
def leadingZeroViolation : List Char → Bool
  | '0' :: rest => rest.any (fun c => c ≠ '0')
  | _ => false

/-- Assemble a numeric token from integer digits `ip`, fractional
digits `fp` and a decimal exponent `ex`; the token is a `float` when a
decimal point or an exponent was present. -/
def mkNumTok (hasDot hasExp : Bool) (ip fp : List Char) (ex : Int)
    (rest : List Char) : Except Err (Tok × List Char) :=
  let isF := hasDot || hasExp
  if !isF && leadingZeroViolation ip then .error .syntaxError
  else
    let mant : ℚ := (digitsVal ip : ℚ) + (digitsVal fp : ℚ) / (10 : ℚ) ^ fp.length
    .ok (.num isF (mant * (10 : ℚ) ^ ex), rest)

/-- Lex an optional exponent part (`e`/`E`, optional sign, digits —
which must be nonempty, as in CPython where `1e` is a `SyntaxError`). -/
def lexExp (hasDot : Bool) (ip fp : List Char) :
    List Char → Except Err (Tok × List Char)
  | c :: t =>
    if c == 'e' || c == 'E' then
      match t with
      | s :: t2 =>
        if s == '+' || s == '-' then
          let (ed, r) := takeDigits t2
          if ed.isEmpty then .error .syntaxError
          else
            let e : Int := if s == '-' then -(digitsVal ed : Int) else (digitsVal ed : Int)
            mkNumTok hasDot true ip fp e r
        else
          let (ed, r) := takeDigits t
          if ed.isEmpty then .error .syntaxError
          else mkNumTok hasDot true ip fp (digitsVal ed : Int) r
      | [] => .error .syntaxError
    else mkNumTok hasDot false ip fp 0 (c :: t)
  | [] => mkNumTok hasDot false ip fp 0 []

/-- Lex a numeric literal starting at a digit or a decimal point. -/
def lexNumber (cs : List Char) : Except Err (Tok × List Char) :=
  let (ip, r1) := takeDigits cs
  match r1 with
  | '.' :: t =>
    let (fp, r2) := takeDigits t
    if ip.isEmpty && fp.isEmpty then .error .syntaxError
    else lexExp true ip fp r2
  | _ =>
    if ip.isEmpty then .error .syntaxError
    else lexExp false ip [] r1

/-- Fueled scanner; each step consumes at least one character, so
`length + 1` fuel suffices. -/
def tokenizeAux : Nat → List Char → Except Err (List Tok)
  | 0, _ => .error .syntaxError
  | _, [] => .ok []
  | fuel + 1, c :: cs =>
    if c == ' ' then tokenizeAux fuel cs
    else if c.isDigit || c == '.' then do
      let (t, rest) ← lexNumber (c :: cs)
      let ts ← tokenizeAux fuel rest
      .ok (t :: ts)
    else if c.isAlpha || c == '_' then
      let (id, rest) := takeIdent (c :: cs)
      do
        let ts ← tokenizeAux fuel rest
        .ok (.ident (String.mk id) :: ts)
    else if c == '*' then
      match cs with
      | '*' :: t => do
        let ts ← tokenizeAux fuel t
        .ok (.dstar :: ts)
      | _ => do
        let ts ← tokenizeAux fuel cs
        .ok (.star :: ts)
    else if c == '/' then
      match cs with
      | '/' :: t => do
        let ts ← tokenizeAux fuel t
        .ok (.dslash :: ts)
      | _ => do
        let ts ← tokenizeAux fuel cs
        .ok (.slash :: ts)
    else if c == '<' then
      match cs with
      | '<' :: t => do
        let ts ← tokenizeAux fuel t
        .ok (.lshift :: ts)
      | _ => .error .syntaxError
    else if c == '>' then
      match cs with
      | '>' :: t => do
        let ts ← tokenizeAux fuel t
        .ok (.rshift :: ts)
      | _ => .error .syntaxError
    else
      let tok : Option Tok :=
        if c == '+' then some .plus
        else if c == '-' then some .minus
        else if c == '%' then some .percent
        else if c == '^' then some .caret
        else if c == '&' then some .amp
        else if c == '|' then some .pipe
        else if c == '~' then some .tilde
        else if c == '(' then some .lparen
        else if c == ')' then some .rparen
        else Option.none
      match tok with
      | some t => do
        let ts ← tokenizeAux fuel cs
        .ok (t :: ts)
      | Option.none => .error .syntaxError

/-- Scan an input string into tokens. -/
def tokenize (s : String) : Except Err (List Tok) :=
  tokenizeAux (s.length + 1) s.toList

/-- The binary operator read at each left-associative precedence level,
lowest (0, bitwise or) to highest (5, multiplicative). -/
def levelOp (lvl : Nat) (t : Tok) : Option BinOperator :=
  match lvl, t with
  | 0, .pipe => some .bitOr
  | 1, .caret => some .bitXor
  | 2, .amp => some .bitAnd
  | 3, .lshift => some .lShift
  | 3, .rshift => some .rShift
  | 4, .plus => some .add
  | 4, .minus => some .sub
  | 5, .star => some .mult
  | 5, .slash => some .div
  | 5, .dslash => some .floorDiv
  | 5, .percent => some .mod
  | _, _ => Option.none

mutual

/-- Parse one expression at precedence level `lvl` (levels ≥ 6 are the
unary/power/atom levels). -/
def parseLevel : Nat → Nat → List Tok → Except Err (Ast × List Tok)
  | 0, _, _ => .error .syntaxError
  | fuel + 1, lvl, ts =>
    if lvl ≥ 6 then parseFactor fuel ts
    else do
      let (l, r) ← parseLevel fuel (lvl + 1) ts
      parseLevelRest fuel lvl l r

/-- Left-associative continuation at level `lvl`. -/
def parseLevelRest : Nat → Nat → Ast → List Tok → Except Err (Ast × List Tok)
  | 0, _, _, _ => .error .syntaxError
  | fuel + 1, lvl, acc, ts =>
    match ts with
    | tok :: t =>
      match levelOp lvl tok with
      | some op => do
        let (r, rest) ← parseLevel fuel (lvl + 1) t
        parseLevelRest fuel lvl (.binOp acc op r) rest
      | Option.none => .ok (acc, ts)
    | [] => .ok (acc, [])

/-- Unary level: `+`, `-`, `~` apply to a nested factor. -/
def parseFactor : Nat → List Tok → Except Err (Ast × List Tok)
  | 0, _ => .error .syntaxError
  | fuel + 1, ts =>
    match ts with
    | .plus :: t => do
      let (e, r) ← parseFactor fuel t
      .ok (.unaryOp .uAdd e, r)
    | .minus :: t => do
      let (e, r) ← parseFactor fuel t
      .ok (.unaryOp .uSub e, r)
    | .tilde :: t => do
      let (e, r) ← parseFactor fuel t
      .ok (.unaryOp .invert e, r)
    | _ => parsePower fuel ts

/-- Power level: `atom ** factor`, right-associative, the right operand
reached through the unary level as in Python's grammar. -/
def parsePower : Nat → List Tok → Except Err (Ast × List Tok)
  | 0, _ => .error .syntaxError
  | fuel + 1, ts => do
    let (b, r) ← parseAtom fuel ts
    match r with
    | .dstar :: t => do
      let (e, r2) ← parseFactor fuel t
      .ok (.binOp b .pow e, r2)
    | _ => .ok (b, r)

/-- Atoms: numeric literals, identifiers (with the keyword constants
`True`, `False`, `None` lexed as constants, as in Python), and
parenthesised expressions. -/
def parseAtom : Nat → List Tok → Except Err (Ast × List Tok)
  | 0, _ => .error .syntaxError
  | fuel + 1, ts =>
    match ts with
    | .num f q :: t => .ok (.constant (if f then .float q else .int q.num), t)
    | .ident s :: t =>
      if s == "True" then .ok (.constant (.bool true), t)
      else if s == "False" then .ok (.constant (.bool false), t)
      else if s == "None" then .ok (.constant .none, t)
      else .ok (.name s, t)
    | .lparen :: t => do
      let (e, r) ← parseLevel fuel 0 t
      match r with
      | .rparen :: t2 => .ok (e, t2)
      | _ => .error .syntaxError
    | _ => .error .syntaxError

end

/-- `ast.parse(expression, mode="eval").body` over the input fragment:
tokenize, parse a full expression, and require every token to be
consumed. -/
def parse (s : String) : Except Err Ast := do
  let toks ← tokenize s
  let (a, rest) ← parseLevel (toks.length * 16 + 32) 0 toks
  if rest.isEmpty then .ok a else .error .syntaxError

/-- `SafeEvaluator.evaluate` (source lines 19-22): parse the input
string and reduce the resulting tree with `_eval_node`. -/
def SafeEvaluator.evaluate (s : String) : Except Err Value := do
  let node ← parse s
  SafeEvaluator.eval_node node

/-! ### The evaluator with its class state threaded explicitly

`SafeEvaluator` is a class whose only attribute is the
`ALLOWED_OPERATORS` dict, read by every step of `_eval_node`; a Python
classmethod could in principle mutate it.  To make "no hidden mutable
state" provable rather than assumed, `eval_node_st` threads that class
state through every recursive step exactly where the source reads the
dict, and the theorems show each step returns the state unchanged. -/

/-- The mutable-in-principle class state of `SafeEvaluator`: the
`ALLOWED_OPERATORS` dict, split by arity as in `ALLOWED_BINARY` /
`ALLOWED_UNARY`. -/
structure EvaluatorState where
  allowedBinary : BinOperator → Option (Value → Value → Except Err Value)
  allowedUnary : UnaryOperator → Option (Value → Value)

/-- The state holding the source's `ALLOWED_OPERATORS` entries. -/
def initState : EvaluatorState :=
  ⟨SafeEvaluator.ALLOWED_BINARY, SafeEvaluator.ALLOWED_UNARY⟩

/-- `_eval_node` with the class state threaded through each recursive
call and each dict lookup. -/
def eval_node_st : EvaluatorState → Ast → (Except Err Value) × EvaluatorState
  | st, .constant v =>
    (match v with
     | .int n => .ok (.int n)
     | .float q => .ok (.float q)
     | .bool b => .ok (.bool b)
     | _ => .error .invalidConstant, st)
  | st, .binOp l op r =>
    match eval_node_st st l with
    | (.error e, st1) => (.error e, st1)
    | (.ok lv, st1) =>
      match eval_node_st st1 r with
      | (.error e, st2) => (.error e, st2)
      | (.ok rv, st2) =>
        match st2.allowedBinary op with
        | Option.none => (.error .operatorNotAllowed, st2)
        | some f => (f lv rv, st2)
  | st, .unaryOp op e =>
    match eval_node_st st e with
    | (.error er, st1) => (.error er, st1)
    | (.ok v, st1) =>
      match st1.allowedUnary op with
      | Option.none => (.error .unaryOperatorNotAllowed, st1)
      | some f => (.ok (f v), st1)
  | st, .expr e => eval_node_st st e
  | st, _ => (.error .invalidExpression, st)

/-- `evaluate` with the class state threaded (`ast.parse` reads no
evaluator state, so the parse step passes it through). -/
def evaluate_st (st : EvaluatorState) (s : String) :
    (Except Err Value) × EvaluatorState :=
  match parse s with
  | .error e => (.error e, st)
  | .ok a => eval_node_st st a

/-- Every step of `_eval_node` returns the class state unchanged: the
source never assigns to `ALLOWED_OPERATORS`. -/
lemma eval_node_st_state : ∀ (n : Ast) (st : EvaluatorState), (eval_node_st st n).2 = st
  | .constant v, st => by cases v <;> rfl
  | .binOp l op r, st => by
    have ihl := eval_node_st_state l st
    simp only [eval_node_st]
    rcases hl : eval_node_st st l with ⟨e | lv, st1⟩ <;> rw [hl] at ihl <;>
      dsimp only at ihl ⊢
    · exact ihl
    · have ihr := eval_node_st_state r st1
      rcases hr : eval_node_st st1 r with ⟨e | rv, st2⟩ <;> rw [hr] at ihr <;>
        dsimp only at ihr ⊢
      · exact ihr.trans ihl
      · cases hb : st2.allowedBinary op <;> simp only [hb] <;> exact ihr.trans ihl
  | .unaryOp op e, st => by
    have ih := eval_node_st_state e st
    simp only [eval_node_st]
    rcases he : eval_node_st st e with ⟨er | v, st1⟩ <;> rw [he] at ih <;>
      dsimp only at ih ⊢
    · exact ih
    · cases hu : st1.allowedUnary op <;> simp only [hu] <;> exact ih
  | .expr e, st => by
    simp only [eval_node_st]; exact eval_node_st_state e st
  | .name _, _ => rfl
  | .call _ _, _ => rfl
  | .compare _ _ _, _ => rfl
  | .boolOp _ _, _ => rfl
  | .listLit _, _ => rfl
  | .tupleLit _, _ => rfl
  | .attrAccess _ _, _ => rfl
  | .subscript _ _, _ => rfl

/-- On the source's own `ALLOWED_OPERATORS` state, the state-threaded
evaluator computes exactly the pure `eval_node`. -/
lemma eval_node_st_fst :
    ∀ n : Ast, eval_node_st initState n = (SafeEvaluator.eval_node n, initState)
  | .constant v => by cases v <;> rfl
  | .binOp l op r => by
    have ihl := eval_node_st_fst l
    have ihr := eval_node_st_fst r
    simp only [eval_node_st, SafeEvaluator.eval_node, ihl]
    cases hl : SafeEvaluator.eval_node l with
    | error e => rfl
    | ok lv =>
      simp only [ihr]
      cases hr : SafeEvaluator.eval_node r with
      | error e => rfl
      | ok rv =>
        show _ = (_ >>= _, _)
        cases hb : SafeEvaluator.ALLOWED_BINARY op <;>
          simp [hb, initState, Except.bind, Bind.bind]
  | .unaryOp op e => by
    have ih := eval_node_st_fst e
    simp only [eval_node_st, SafeEvaluator.eval_node, ih]
    cases he : SafeEvaluator.eval_node e with
    | error er => rfl
    | ok v =>
      cases hu : SafeEvaluator.ALLOWED_UNARY op <;>
        simp [hu, initState, Except.bind, Bind.bind]
  | .expr e => by
    simpa [eval_node_st, SafeEvaluator.eval_node] using eval_node_st_fst e
  | .name _ => rfl
  | .call _ _ => rfl
  | .compare _ _ _ => rfl
  | .boolOp _ _ => rfl
  | .listLit _ => rfl
  | .tupleLit _ => rfl
  | .attrAccess _ _ => rfl
  | .subscript _ _ => rfl

/-- Outcomes of a run (`Except Err Value`) have decidable equality,
letting concrete evaluations be checked by `decide`. -/
instance : DecidableEq (Except Err Value) := fun a b =>
  match a, b with
  | .error e, .error f =>
    if h : e = f then isTrue (by rw [h]) else isFalse (by simp [h])
  | .error _, .ok _ => isFalse (by simp)
  | .ok _, .error _ => isFalse (by simp)
  | .ok v, .ok w =>
    if h : v = w then isTrue (by rw [h]) else isFalse (by simp [h])

/-! ### Shape classification for the security property -/

/-- The four AST shapes the security claim lists as executable: a
numeric literal, an allow-listed binary operation, an allow-listed
unary operation, or an expression wrapper. -/
def arithmeticShape : Ast → Bool
  | .constant (.int _) => true
  | .constant (.float _) => true
  | .binOp _ op _ => (SafeEvaluator.ALLOWED_BINARY op).isSome
  | .unaryOp op _ => (SafeEvaluator.ALLOWED_UNARY op).isSome
  | .expr _ => true
  | _ => false

/-- The shapes `_eval_node` actually executes: `arithmeticShape` plus
boolean literals, which pass the `isinstance(value, (int, float))`
check because `bool` is a subclass of `int`. -/
def arithmeticOrBoolShape (n : Ast) : Bool :=
  match n with
  | .constant (.bool _) => true
  | _ => arithmeticShape n

/-! ### Claim theorems -/

/-- C1 (counterexample): the claim says every AST shape other than a
numeric literal, an allow-listed binary operation, an allow-listed
unary operation, or an expression wrapper reaches an error branch; but
the boolean literal `True` — none of those shapes — evaluates to a
value, because `bool` is a subclass of `int` and passes the
`isinstance(node.value, (int, float))` check at line 29. -/
theorem bool_literal_executes :
    arithmeticShape (Ast.constant (PyConst.bool true)) = false ∧
    SafeEvaluator.eval_node (Ast.constant (PyConst.bool true)) =
      Except.ok (Value.bool true) :=
  ⟨rfl, rfl⟩

/-- C1 (amended): every AST shape other than a numeric literal, a
boolean literal, an allow-listed binary operation, an allow-listed
unary operation, or an expression wrapper reaches an error branch of
`_eval_node`, never an execution. -/
theorem eval_node_rejects_non_arithmetic (n : Ast)
    (h : arithmeticOrBoolShape n = false) :
    ∃ e, SafeEvaluator.eval_node n = Except.error e := by
  cases n with
  | constant v =>
    cases v with
    | int m => simp [arithmeticOrBoolShape, arithmeticShape] at h
    | float q => simp [arithmeticOrBoolShape, arithmeticShape] at h
    | bool b => simp [arithmeticOrBoolShape] at h
    | str s => exact ⟨.invalidConstant, rfl⟩
    | none => exact ⟨.invalidConstant, rfl⟩
  | binOp l op r =>
    have hop : SafeEvaluator.ALLOWED_BINARY op = Option.none := by
      cases hb : SafeEvaluator.ALLOWED_BINARY op with
      | none => rfl
      | some f => simp [arithmeticOrBoolShape, arithmeticShape, hb] at h
    simp only [SafeEvaluator.eval_node]
    cases hl : SafeEvaluator.eval_node l with
    | error e => exact ⟨e, rfl⟩
    | ok lv =>
      cases hr : SafeEvaluator.eval_node r with
      | error e => exact ⟨e, rfl⟩
      | ok rv =>
        refine ⟨.operatorNotAllowed, ?_⟩
        show (match SafeEvaluator.ALLOWED_BINARY op with
          | Option.none => Except.error Err.operatorNotAllowed
          | some f => f lv rv) = Except.error Err.operatorNotAllowed
        rw [hop]
  | unaryOp op e =>
    have hop : SafeEvaluator.ALLOWED_UNARY op = Option.none := by
      cases hu : SafeEvaluator.ALLOWED_UNARY op with
      | none => rfl
      | some f => simp [arithmeticOrBoolShape, arithmeticShape, hu] at h
    simp only [SafeEvaluator.eval_node]
    cases he : SafeEvaluator.eval_node e with
    | error er => exact ⟨er, rfl⟩
    | ok v =>
      refine ⟨.unaryOperatorNotAllowed, ?_⟩
      show (match SafeEvaluator.ALLOWED_UNARY op with
        | Option.none => Except.error Err.unaryOperatorNotAllowed
        | some f => Except.ok (f v)) = Except.error Err.unaryOperatorNotAllowed
      rw [hop]
  | expr e => simp [arithmeticOrBoolShape, arithmeticShape] at h
  | name id => exact ⟨.invalidExpression, rfl⟩
  | call f args => exact ⟨.invalidExpression, rfl⟩
  | compare l op r => exact ⟨.invalidExpression, rfl⟩
  | boolOp op vs => exact ⟨.invalidExpression, rfl⟩
  | listLit elts => exact ⟨.invalidExpression, rfl⟩
  | tupleLit elts => exact ⟨.invalidExpression, rfl⟩
  | attrAccess v a => exact ⟨.invalidExpression, rfl⟩
  | subscript v i => exact ⟨.invalidExpression, rfl⟩

/-- C1 (witness): a name reference is a non-arithmetic shape and is
rejected. -/
theorem eval_node_rejects_non_arithmetic_witness :
    arithmeticOrBoolShape (Ast.name ("x")) = false ∧
    ∃ e, SafeEvaluator.eval_node (Ast.name ("x")) = Except.error e :=
  ⟨rfl, eval_node_rejects_non_arithmetic (Ast.name ("x")) rfl⟩

/-- C2 (counterexample): `^` is Python's bitwise-xor operator
(`ast.BitXor`), which is not in `ALLOWED_OPERATORS`, so
`evaluate("2^3")` fails with the operator-not-allowed error instead of
returning `8`. -/
theorem caret_is_xor_not_pow :
    SafeEvaluator.evaluate ("2^3") = Except.error Err.operatorNotAllowed ∧
    SafeEvaluator.evaluate ("2^3") ≠ Except.ok (Value.int 8) := by
  exact ⟨by with_unfolding_all rfl, by with_unfolding_all decide⟩

/-- C2 (amended): the power operator is spelled `**`; `evaluate("2**3")`
is `8` and `**` is right-associative — `evaluate("2**3**2")` is `512`,
not the `64` of the explicitly parenthesised `(2**3)**2` — while the
caret of `"2^3"` parses as bitwise xor and is rejected. -/
theorem pow_right_associative :
    SafeEvaluator.evaluate ("2**3") = Except.ok (Value.int 8) ∧
    SafeEvaluator.evaluate ("2**3**2") = Except.ok (Value.int 512) ∧
    SafeEvaluator.evaluate ("(2**3)**2") = Except.ok (Value.int 64) ∧
    SafeEvaluator.evaluate ("2^3") = Except.error Err.operatorNotAllowed := by
  exact ⟨by with_unfolding_all rfl, by with_unfolding_all rfl, by with_unfolding_all rfl, by with_unfolding_all rfl⟩

/-- C3 (counterexample): the boolean literal `True` is not rejected:
`bool` is a subclass of `int`, so `True` passes the
`isinstance(node.value, (int, float))` check and `evaluate("True")`
returns the value `True`. -/
theorem evaluate_true_yields_value :
    SafeEvaluator.evaluate ("True") = Except.ok (Value.bool true) := by
  with_unfolding_all rfl

/-- C3 (amended): identifiers, function calls, string literals and
collection literals are rejected with an error; boolean literals,
however, are accepted — `bool` being a subclass of `int` — and
evaluate to themselves. -/
theorem non_numeric_literals_rejected :
    (∀ s : String, SafeEvaluator.eval_node (Ast.constant (PyConst.str s)) =
      Except.error Err.invalidConstant) ∧
    SafeEvaluator.eval_node (Ast.constant PyConst.none) =
      Except.error Err.invalidConstant ∧
    (∀ id : String, SafeEvaluator.eval_node (Ast.name id) =
      Except.error Err.invalidExpression) ∧
    (∀ (f : Ast) (args : List Ast), SafeEvaluator.eval_node (Ast.call f args) =
      Except.error Err.invalidExpression) ∧
    (∀ elts : List Ast, SafeEvaluator.eval_node (Ast.listLit elts) =
      Except.error Err.invalidExpression) ∧
    (∀ elts : List Ast, SafeEvaluator.eval_node (Ast.tupleLit elts) =
      Except.error Err.invalidExpression) ∧
    SafeEvaluator.evaluate ("True") = Except.ok (Value.bool true) ∧
    SafeEvaluator.evaluate ("False") = Except.ok (Value.bool false) :=
  ⟨fun _ => rfl, rfl, fun _ => rfl, fun _ _ => rfl, fun _ => rfl, fun _ => rfl,
    by with_unfolding_all rfl, by with_unfolding_all rfl⟩

/-- C4: standard operator precedence — multiplication binds tighter
than addition. -/
theorem precedence_examples :
    SafeEvaluator.evaluate ("2+3") = Except.ok (Value.int 5) ∧
    SafeEvaluator.evaluate ("2*3+4") = Except.ok (Value.int 10) ∧
    SafeEvaluator.evaluate ("2+3*4") = Except.ok (Value.int 14) := by
  exact ⟨by with_unfolding_all rfl, by with_unfolding_all rfl, by with_unfolding_all rfl⟩

/-- C5: unary minus is honored — `evaluate("-5+3")` is `-2` — and the
`USub` operator applies numeric negation (`operator.neg`) to the
already-reduced operand. -/
theorem unary_minus_honored :
    SafeEvaluator.evaluate ("-5+3") = Except.ok (Value.int (-2)) ∧
    (∀ (a : Ast) (v : Value), SafeEvaluator.eval_node a = Except.ok v →
      SafeEvaluator.eval_node (Ast.unaryOp UnaryOperator.uSub a) =
        Except.ok (pyNeg v)) := by
  refine ⟨by with_unfolding_all rfl, ?_⟩
  intro a v h
  simp [SafeEvaluator.eval_node, h, SafeEvaluator.ALLOWED_UNARY,
    Bind.bind, Except.bind]

/-- C6: `evaluate("5/0")` fails with the division-by-zero error
(`operator.truediv` raises `ZeroDivisionError`; the code raises rather
than propagating an infinity). -/
theorem div_by_zero_raises :
    SafeEvaluator.evaluate ("5/0") = Except.error Err.zeroDivision := by
  with_unfolding_all rfl

/-- C7 (counterexample): `evaluate("")` fails with the parser's
`SyntaxError`, not with a distinct `EmptyInputError`: no such error
class exists in the code. -/
theorem empty_input_no_distinct_error :
    SafeEvaluator.evaluate ("") = Except.error Err.syntaxError ∧
    SafeEvaluator.evaluate ("") ≠ Except.error Err.emptyInput := by
  exact ⟨by with_unfolding_all rfl, by with_unfolding_all decide⟩

/-- C7 (amended): `evaluate("")` fails with `SyntaxError` — the very
same failure an incomplete expression like `"2+"` produces, so empty
input is not distinguished from syntax errors. -/
theorem empty_input_syntax_error :
    SafeEvaluator.evaluate ("") = Except.error Err.syntaxError ∧
    SafeEvaluator.evaluate ("") = SafeEvaluator.evaluate ("2+") := by
  have h1 : SafeEvaluator.evaluate ("") = Except.error Err.syntaxError := by
    with_unfolding_all rfl
  have h2 : SafeEvaluator.evaluate ("2+") = Except.error Err.syntaxError := by
    with_unfolding_all rfl
  exact ⟨h1, h1.trans h2.symm⟩

/-- C8: an incomplete expression fails with `SyntaxError`. -/
theorem incomplete_expression_syntax_error :
    SafeEvaluator.evaluate ("2+") = Except.error Err.syntaxError := by
  with_unfolding_all rfl

/-- C9: evaluation is a pure, stateless function of its input string —
every call leaves the `ALLOWED_OPERATORS` class state unchanged, a
second call with the same string returns the very same outcome, and on
the source's own operator table the state-threaded run computes exactly
the pure `evaluate`. -/
theorem evaluate_stateless_idempotent (st : EvaluatorState) (s : String) :
    (evaluate_st st s).2 = st ∧
    evaluate_st (evaluate_st st s).2 s = evaluate_st st s ∧
    (evaluate_st initState s).1 = SafeEvaluator.evaluate s := by
  have hstate : (evaluate_st st s).2 = st := by
    unfold evaluate_st
    cases hp : parse s with
    | error e => rfl
    | ok a => exact eval_node_st_state a st
  refine ⟨hstate, by rw [hstate], ?_⟩
  unfold evaluate_st SafeEvaluator.evaluate
  cases hp : parse s with
  | error e => rfl
  | ok a => simp [eval_node_st_fst a, Bind.bind, Except.bind]

/-- C10: scientific notation is accepted — `evaluate("1e3")` returns
the float `1000.0` — because any parsed constant whose value is an
`int` or `float` is accepted. -/
theorem scientific_notation_accepted :
    SafeEvaluator.evaluate ("1e3") = Except.ok (Value.float 1000) ∧
    (∀ n : Int, SafeEvaluator.eval_node (Ast.constant (PyConst.int n)) =
      Except.ok (Value.int n)) ∧
    (∀ q : ℚ, SafeEvaluator.eval_node (Ast.constant (PyConst.float q)) =
      Except.ok (Value.float q)) :=
  ⟨by with_unfolding_all rfl, fun _ => rfl, fun _ => rfl⟩

end OscarCalc
